import Mathlib

/-!
Verification of the XAOSTECH security worker (security.xaostech.io).

This file is a shallow embedding of the alert applicability and remediation
engine of the security worker: the rule-matching policy engine
(checkApplicability), the built-in heuristic analyzer
(analyzeAlertApplicability), the idempotent alert store (storeAlert upsert
over the alerts table of the D1 schema), the credential cache
(getInstallationToken), the webhook receiver, and the scan orchestrator
(runSecurityScan), together with theorems settling the frozen claims.

Modelling conventions:
  * JavaScript strings are Lean String; numbers are Nat or Int.
  * Nested TypeScript objects (alert.dependency.package.name,
    alert.security_advisory.severity, ...) are flattened into one structure,
    with field names recording the original path.
  * SQL timestamps (datetime evaluations) are abstract Nat instants passed
    in as a parameter; larger means later.
  * Asynchronous I/O that can fail (GitHub API calls) is passed in as an
    explicit Except-valued oracle, so a throw at a given call site is an
    Except.error result of that oracle.
  * The D1 database is a record of in-memory tables; a SQL
    INSERT ... ON CONFLICT ... DO UPDATE is an explicit insert-or-update on
    the list representing the table.
-/

/-- One Dependabot alert as delivered by the GitHub API (interface
DependabotAlert in the source), flattened. `dependency_package_name` is
alert.dependency.package.name, `advisory_severity` is
alert.security_advisory.severity, and so on. String-literal unions of the
TypeScript source (state, scope, severity) are kept as strings. -/
structure DependabotAlert where
  number : Nat
  state : String
  dependency_package_ecosystem : String
  dependency_package_name : String
  manifest_path : String
  dependency_scope : String
  advisory_ghsa_id : String
  advisory_cve_id : Option String
  advisory_summary : String
  advisory_description : String
  advisory_severity : String
  vulnerable_version_range : String
  first_patched_version : Option String
  created_at : String
  updated_at : String
deriving DecidableEq, Repr

/-- One repository as delivered by the GitHub list-repositories endpoint
(interface Repository in the source; the `private` field is omitted as it is
never read by the embedded code). -/
structure Repository where
  name : String
  full_name : String
  default_branch : String
deriving DecidableEq, Repr

/-- One row of the applicability_rules table (interface ApplicabilityRule in
the source plus the `active` column of the schema). A null match column is
None and means "match any". -/
structure ApplicabilityRule where
  id : Nat
  package_name : Option String
  package_ecosystem : Option String
  ghsa_id : Option String
  cve_id : Option String
  severity : Option String
  is_applicable : Int
  reason : String
  dismiss_reason : Option String
  priority : Int
  active : Int
deriving DecidableEq, Repr

/-- The result shape of both classifiers:
{ applicable: boolean; reason: string; dismissReason?: string }. -/
structure ClassificationResult where
  applicable : Bool
  reason : String
  dismissReason : Option String
deriving DecidableEq, Repr

/-- JavaScript String.prototype.toLowerCase as used by the analyzer:
character-wise lowercasing of the string. -/
def jsToLower (s : String) : String :=
  ⟨s.data.map Char.toLower⟩

/-- Whether `pat` occurs as a contiguous run starting at some suffix of the
haystack character list. -/
def charsContain (pat : List Char) : List Char → Bool
  | [] => pat.isEmpty
  | c :: rest => pat.isPrefixOf (c :: rest) || charsContain pat rest

/-- JavaScript String.prototype.includes: substring containment. -/
def jsIncludes (s pat : String) : Bool :=
  charsContain pat.data s.data

/-- JavaScript `x || undefined` applied to a string-or-null value: null stays
absent and the empty string (falsy) also maps to absent. -/
def jsOrUndefined (o : Option String) : Option String :=
  match o with
  | none => none
  | some s => if s = "" then none else some s

/-- Whether one applicability rule matches one alert: every non-null rule
column equals the corresponding alert field (the `matches` conjunction inside
checkApplicability in the source). -/
def ruleMatches (rule : ApplicabilityRule) (alert : DependabotAlert) : Bool :=
  (rule.package_name == none || rule.package_name == some alert.dependency_package_name) &&
  (rule.package_ecosystem == none || rule.package_ecosystem == some alert.dependency_package_ecosystem) &&
  (rule.ghsa_id == none || rule.ghsa_id == some alert.advisory_ghsa_id) &&
  (rule.cve_id == none || rule.cve_id == alert.advisory_cve_id) &&
  (rule.severity == none || rule.severity == some alert.advisory_severity)

/-- checkApplicability from the source: scan the delivered rule rows in order
and return the verdict of the first matching rule; with no match, the fixed
default. The SQL `WHERE active = 1 ORDER BY priority DESC` is represented by
the caller delivering the active rows already in descending-priority order
(stated as a hypothesis where a theorem needs it). -/
def checkApplicability (rules : List ApplicabilityRule) (alert : DependabotAlert) :
    ClassificationResult :=
  match rules.find? (fun rule => ruleMatches rule alert) with
  | some rule =>
      { applicable := rule.is_applicable == 1
        reason := rule.reason
        dismissReason := jsOrUndefined rule.dismiss_reason }
  | none =>
      { applicable := true, reason := "No matching rule - treating as applicable"
        dismissReason := none }

/-- analyzeAlertApplicability from the source: the built-in heuristic
analyzer. The nested early-return structure of the TypeScript function is
linearized into one if-chain; each guard is the conjunction of the enclosing
package check and the branch condition, in source order. -/
def analyzeAlertApplicability (alert : DependabotAlert) : ClassificationResult :=
  let pkg := jsToLower alert.dependency_package_name
  let scope := alert.dependency_scope
  let summary := jsToLower alert.advisory_summary
  if pkg == "hono" && (jsIncludes summary "jwk" || jsIncludes summary "jwt" ||
      jsIncludes summary "algorithm confusion") then
    { applicable := false
      reason := "We use jose library for JWT validation, not Hono JWT middleware"
      dismissReason := some "not_used" }
  else if pkg == "hono" && (jsIncludes summary "servestatic" && jsIncludes summary "deno") then
    { applicable := false
      reason := "Deno-specific vulnerability - we run on Cloudflare Workers"
      dismissReason := some "inaccurate" }
  else if pkg == "hono" && jsIncludes summary "csrf" then
    { applicable := true
      reason := "Review CSRF middleware usage in codebase"
      dismissReason := none }
  else if pkg == "hono" && jsIncludes summary "body limit" then
    { applicable := false
      reason := "Cloudflare Workers has built-in request size limits"
      dismissReason := some "tolerable_risk" }
  else if pkg == "hono" && (jsIncludes summary "trierouter" ||
      jsIncludes summary "named path parameters") then
    { applicable := false
      reason := "TrieRouter parameter override is low risk for our API design"
      dismissReason := some "tolerable_risk" }
  else if pkg == "hono" && (jsIncludes summary "vary header" || jsIncludes summary "cors bypass") then
    { applicable := true
      reason := "CORS bypass could affect cross-origin security"
      dismissReason := none }
  else if pkg == "wrangler" && scope == "development" then
    { applicable := false
      reason := "Wrangler is a development dependency, not deployed to production"
      dismissReason := some "not_used" }
  else if pkg == "zod" && (jsIncludes summary "denial of service" || jsIncludes summary "dos") then
    { applicable := true
      reason := "Zod DoS could affect API endpoints - verify input validation patterns"
      dismissReason := none }
  else if scope == "development" then
    { applicable := false
      reason := "Development dependency - not deployed to production"
      dismissReason := some "not_used" }
  else if alert.advisory_severity == "critical" || alert.advisory_severity == "high" then
    { applicable := true
      reason := alert.advisory_severity ++ " severity - requires immediate attention"
      dismissReason := none }
  else
    { applicable := true, reason := "Requires manual review", dismissReason := none }

/-- One row of the alerts table of the D1 schema. Timestamp columns whose SQL
value is a datetime are abstract Nat instants; the `id` autoincrement column
is omitted (the unique key of interest is
(repo_full_name, alert_type, github_alert_id)). -/
structure AlertRow where
  github_alert_id : Nat
  repo_name : String
  repo_full_name : String
  alert_type : String
  state : String
  severity : String
  package_ecosystem : String
  package_name : String
  vulnerable_version : String
  patched_version : Option String
  ghsa_id : String
  cve_id : Option String
  summary : String
  description : String
  is_applicable : Int
  applicability_reason : String
  auto_closed : Int
  auto_closed_at : Option Nat
  auto_closed_reason : Option String
  github_created_at : String
  github_updated_at : String
  first_seen_at : Nat
  last_checked_at : Nat
deriving DecidableEq, Repr

/-- Whether an alerts-table row carries the given upsert key
(repo_full_name, alert_type, github_alert_id). -/
def rowHasKey (repoFullName alertType : String) (alertId : Nat) (row : AlertRow) : Bool :=
  row.repo_full_name == repoFullName && row.alert_type == alertType &&
  row.github_alert_id == alertId

/-- The fresh row inserted by storeAlert on the no-conflict path: every bound
column from the alert plus the schema defaults for the unbound columns
(auto_closed 0, first_seen_at and last_checked_at the current datetime). -/
def insertedAlertRow (repo : Repository) (alert : DependabotAlert)
    (analysis : ClassificationResult) (now : Nat) : AlertRow :=
  { github_alert_id := alert.number
    repo_name := repo.name
    repo_full_name := repo.full_name
    alert_type := "dependabot"
    state := alert.state
    severity := alert.advisory_severity
    package_ecosystem := alert.dependency_package_ecosystem
    package_name := alert.dependency_package_name
    vulnerable_version := alert.vulnerable_version_range
    patched_version := alert.first_patched_version
    ghsa_id := alert.advisory_ghsa_id
    cve_id := alert.advisory_cve_id
    summary := alert.advisory_summary
    description := alert.advisory_description
    is_applicable := if analysis.applicable then 1 else 0
    applicability_reason := analysis.reason
    auto_closed := 0
    auto_closed_at := none
    auto_closed_reason := none
    github_created_at := alert.created_at
    github_updated_at := alert.updated_at
    first_seen_at := now
    last_checked_at := now }

/-- The conflict-path update of storeAlert: refresh state, verdict, reason and
last_checked_at; every other column (in particular first_seen_at) is kept. -/
def updatedAlertRow (alert : DependabotAlert) (analysis : ClassificationResult)
    (now : Nat) (row : AlertRow) : AlertRow :=
  { row with
    state := alert.state
    is_applicable := if analysis.applicable then 1 else 0
    applicability_reason := analysis.reason
    last_checked_at := now }

/-- storeAlert from the source: INSERT ... ON CONFLICT(repo_full_name,
alert_type, github_alert_id) DO UPDATE over the alerts table. -/
def storeAlert (table : List AlertRow) (repo : Repository) (alert : DependabotAlert)
    (analysis : ClassificationResult) (now : Nat) : List AlertRow :=
  if table.any (rowHasKey repo.full_name "dependabot" alert.number) then
    table.map (fun row =>
      if rowHasKey repo.full_name "dependabot" alert.number row then
        updatedAlertRow alert analysis now row
      else row)
  else
    table ++ [insertedAlertRow repo alert analysis now]

/-- The UPDATE issued after a successful dismissal: set auto_closed, its
timestamp and reason on the rows matching repo_full_name, github_alert_id and
alert_type = dependabot. -/
def autoCloseUpdate (table : List AlertRow) (repoFullName : String) (alertNumber : Nat)
    (reason : String) (now : Nat) : List AlertRow :=
  table.map (fun row =>
    if rowHasKey repoFullName "dependabot" alertNumber row then
      { row with auto_closed := 1, auto_closed_at := some now,
                 auto_closed_reason := some reason }
    else row)

/-- The D1 database state the worker touches during a scan: the alerts table
and the applicability_rules table. -/
structure Database where
  alerts : List AlertRow
  rules : List ApplicabilityRule
deriving DecidableEq, Repr

/-- One observable side effect of the scan loop, in execution order: an
alert-store upsert carrying the classification it persists, an upstream
dismissal attempt (the PATCH call of dismissAlert), or the auto_closed
bookkeeping UPDATE issued after a successful dismissal. -/
inductive ScanEvent where
  | store (repoFullName : String) (alert : DependabotAlert) (analysis : ClassificationResult)
  | dismiss (repoFullName : String) (alert : DependabotAlert)
  | autoClose (repoFullName : String) (alertNumber : Nat)
deriving DecidableEq, Repr

/-- The mutable state threaded through runSecurityScan: the alerts table
(the only table the scan loop writes), the four counters, the error list,
and the event trace. -/
structure ScanState where
  alertsTable : List AlertRow
  reposScanned : Nat
  alertsFound : Nat
  alertsAutoClosed : Nat
  applicableAlerts : Nat
  errors : List String
  trace : List ScanEvent
deriving DecidableEq, Repr

/-- The body of the inner alert loop of runSecurityScan: classify with the
heuristic analyzer, upsert via storeAlert, then either count the alert as
applicable or, when a dismissReason is present, attempt the upstream
dismissal (outcome given by the oracle `dres`), recording success in the
alerts table and failure in the error list. -/
def processAlert (dres : String → Nat → Except String Unit) (now : Nat)
    (repo : Repository) (st : ScanState) (alert : DependabotAlert) : ScanState :=
  let analysis := analyzeAlertApplicability alert
  let st1 : ScanState :=
    { st with
      alertsTable := storeAlert st.alertsTable repo alert analysis now
      trace := st.trace ++ [ScanEvent.store repo.full_name alert analysis] }
  if analysis.applicable then
    { st1 with applicableAlerts := st1.applicableAlerts + 1 }
  else
    match analysis.dismissReason with
    | none => st1
    | some _ =>
      let st2 : ScanState :=
        { st1 with trace := st1.trace ++ [ScanEvent.dismiss repo.full_name alert] }
      match dres repo.full_name alert.number with
      | Except.ok _ =>
        { st2 with
          alertsTable := autoCloseUpdate st2.alertsTable repo.full_name alert.number
                           analysis.reason now
          alertsAutoClosed := st2.alertsAutoClosed + 1
          trace := st2.trace ++ [ScanEvent.autoClose repo.full_name alert.number] }
      | Except.error e =>
        { st2 with
          errors := st2.errors ++
            ["Failed to dismiss " ++ repo.full_name ++ "#" ++ toString alert.number ++
             ": " ++ e] }

/-- getDependabotAlerts from the source: the GitHub list call for one
repository, with its try/catch that turns any failure into an empty alert
list (repositories without Dependabot enabled). `fetch` is the outcome of the
underlying githubAPI call, keyed by repository full name. -/
def getDependabotAlerts (fetch : String → Except String (List DependabotAlert))
    (repoFullName : String) : List DependabotAlert :=
  match fetch repoFullName with
  | Except.ok alerts => alerts
  | Except.error _ => []

/-- The body of the repository loop of runSecurityScan: fetch the open alerts
(failures swallowed by getDependabotAlerts), bump the repository and alert
counters, then process each alert in order. -/
def processRepo (fetch : String → Except String (List DependabotAlert))
    (dres : String → Nat → Except String Unit) (now : Nat)
    (st : ScanState) (repo : Repository) : ScanState :=
  let alerts := getDependabotAlerts fetch repo.full_name
  let st1 : ScanState :=
    { st with reposScanned := st.reposScanned + 1
              alertsFound := st.alertsFound + alerts.length }
  alerts.foldl (processAlert dres now repo) st1

/-- The finalized scan_history row written by runSecurityScan (success path
sets counters and success = 1; the outer-failure path sets only the error
payload and success = 0, leaving the counter columns at their schema
defaults). The serialized error column is null when the error list is
empty. -/
structure ScanRunRow where
  scan_type : String
  started_at : Nat
  completed_at : Option Nat
  repos_scanned : Nat
  alerts_found : Nat
  alerts_auto_closed : Nat
  errors : Option (List String)
  success : Int
deriving DecidableEq, Repr

/-- The summary object returned by runSecurityScan. -/
structure ScanSummary where
  repos_scanned : Nat
  alerts_found : Nat
  alerts_auto_closed : Nat
  applicable_alerts : Nat
  errors : List String
deriving DecidableEq, Repr

/-- runSecurityScan from the source. `reposResult` is the outcome of
listOrgRepos: an error there escapes the per-repository isolation and takes
the outer catch (success = 0); otherwise every repository is processed in
order and the run is finalized with success = 1 regardless of per-repository
errors. The scan reads and writes db.alerts through storeAlert and
autoCloseUpdate and never reads db.rules (no query against
applicability_rules occurs anywhere in runSecurityScan or its callees in the
source). Returns the final state, the returned summary and the finalized
scan_history row. -/
def runSecurityScan (reposResult : Except String (List Repository))
    (fetch : String → Except String (List DependabotAlert))
    (dres : String → Nat → Except String Unit)
    (now : Nat) (scanType : String) (db : Database) :
    ScanState × ScanSummary × ScanRunRow :=
  let st0 : ScanState :=
    { alertsTable := db.alerts, reposScanned := 0, alertsFound := 0, alertsAutoClosed := 0
      applicableAlerts := 0, errors := [], trace := [] }
  match reposResult with
  | Except.error e =>
    let errs := ["Scan failed: " ++ e]
    ({ st0 with errors := errs },
     { repos_scanned := 0, alerts_found := 0, alerts_auto_closed := 0
       applicable_alerts := 0, errors := errs },
     { scan_type := scanType, started_at := now, completed_at := some now
       repos_scanned := 0, alerts_found := 0, alerts_auto_closed := 0
       errors := some errs, success := 0 })
  | Except.ok repos =>
    let stF := repos.foldl (processRepo fetch dres now) st0
    (stF,
     { repos_scanned := stF.reposScanned, alerts_found := stF.alertsFound
       alerts_auto_closed := stF.alertsAutoClosed
       applicable_alerts := stF.applicableAlerts, errors := stF.errors },
     { scan_type := scanType, started_at := now, completed_at := some now
       repos_scanned := stF.reposScanned, alerts_found := stF.alertsFound
       alerts_auto_closed := stF.alertsAutoClosed
       errors := if stF.errors.length > 0 then some stF.errors else none
       success := 1 })

/-- The result of getInstallationToken: the token handed to the caller, the
cache state afterwards, and whether any network activity (assertion signing
plus token exchange) was performed. -/
structure TokenResult where
  token : String
  cache : Option (String × Int)
  network : Bool
deriving DecidableEq, Repr

/-- getInstallationToken from the source. The KV cache entry is the parsed
{ token, expires_at } pair with expires_at in epoch milliseconds; `now` is
Date.now(). A cached token is returned without network activity exactly when
its expiry is strictly later than now + 60000 ms; otherwise a fresh assertion
is signed and exchanged (`exchange` is the outcome of that network call) and
the new pair is cached. -/
def getInstallationToken (cache : Option (String × Int)) (now : Int)
    (exchange : Except String (String × Int)) : Except String TokenResult :=
  match cache with
  | some (token, expiresAt) =>
    if expiresAt > now + 60000 then
      Except.ok { token := token, cache := cache, network := false }
    else
      match exchange with
      | Except.ok (t, e) => Except.ok { token := t, cache := some (t, e), network := true }
      | Except.error err => Except.error ("Failed to get installation token: " ++ err)
  | none =>
    match exchange with
    | Except.ok (t, e) => Except.ok { token := t, cache := some (t, e), network := true }
    | Except.error err => Except.error ("Failed to get installation token: " ++ err)

/-- The response body of the webhook route. -/
structure WebhookResponse where
  received : Bool
deriving DecidableEq, Repr

/-- The POST /webhook handler from the source: it reads the X-GitHub-Event
header and the JSON body, logs the action for dependabot_alert events
(triggering nothing: the scan trigger is only a comment in the source),
performs no signature verification (the signature header is never read), and
responds { received: true }. Returned: the untouched database, the list of
scans triggered (always empty) and the response. -/
def postWebhook (db : Database) (eventHeader : Option String)
    (bodyAction : String) (signatureHeader : Option String) :
    Database × List String × WebhookResponse :=
  match eventHeader with
  | some "dependabot_alert" => (db, [], { received := true })
  | _ => (db, [], { received := true })

/-- The events processAlert emits for one alert, in order: the store upsert,
then, only for a non-applicable classification carrying a dismissReason, the
dismissal attempt followed (on success) by the auto_closed update. Used to
decompose the trace of a whole run into per-alert blocks. -/
def alertEvents (dres : String → Nat → Except String Unit)
    (repoFullName : String) (alert : DependabotAlert) : List ScanEvent :=
  let analysis := analyzeAlertApplicability alert
  ScanEvent.store repoFullName alert analysis ::
    (if analysis.applicable then []
     else
       match analysis.dismissReason with
       | none => []
       | some _ =>
         ScanEvent.dismiss repoFullName alert ::
           (match dres repoFullName alert.number with
            | Except.ok _ => [ScanEvent.autoClose repoFullName alert.number]
            | Except.error _ => []))

/-- The per-alert event blocks of one repository, in processing order. -/
def repoBlocks (fetch : String → Except String (List DependabotAlert))
    (dres : String → Nat → Except String Unit) (repo : Repository) :
    List (List ScanEvent) :=
  (getDependabotAlerts fetch repo.full_name).map (alertEvents dres repo.full_name)

/-- The per-alert event blocks of a whole run, in processing order (empty
when the repository enumeration itself failed). -/
def scanBlocks (reposResult : Except String (List Repository))
    (fetch : String → Except String (List DependabotAlert))
    (dres : String → Nat → Except String Unit) : List (List ScanEvent) :=
  match reposResult with
  | Except.error _ => []
  | Except.ok repos => (repos.map (repoBlocks fetch dres)).flatten

/-- Every dismissal attempt for (repoFullName, alert) occurring in the trace
is preceded by the store upsert for the same repository and alert: however
the trace is split at such a dismissal event, the corresponding store event
lies strictly before the split. -/
def StorePrecedes (repoFullName : String) (alert : DependabotAlert)
    (t : List ScanEvent) : Prop :=
  ∀ l1 l2, t = l1 ++ ScanEvent.dismiss repoFullName alert :: l2 →
    ScanEvent.store repoFullName alert (analyzeAlertApplicability alert) ∈ l1

/-- Modelled from the spec (refinement target for the scan-time
classification algorithm, to be compared with what runSecurityScan computes):
evaluate the delivered active rules in descending priority order, first
matching rule wins; when no rule matches, fall back to the built-in heuristic
analyzer. This definition follows the words of the spec, not the source. -/
def specScanClassify (rules : List ApplicabilityRule) (alert : DependabotAlert) :
    ClassificationResult :=
  match rules.find? (fun rule => ruleMatches rule alert) with
  | some rule =>
      { applicable := rule.is_applicable == 1
        reason := rule.reason
        dismissReason := jsOrUndefined rule.dismiss_reason }
  | none => analyzeAlertApplicability alert

/-!  Concrete repositories, alerts, rules and oracles used by the
counterexamples and witnesses below. -/

/-- A low-severity runtime alert for the npm package left-pad (the scenario
of the spec scenario section). -/
def leftPadRuntimeAlert : DependabotAlert :=
  { number := 7
    state := "open"
    dependency_package_ecosystem := "npm"
    dependency_package_name := "left-pad"
    manifest_path := "package.json"
    dependency_scope := "runtime"
    advisory_ghsa_id := "GHSA-aaaa-bbbb-cccc"
    advisory_cve_id := none
    advisory_summary := "left-pad padding miscalculation"
    advisory_description := "padding"
    advisory_severity := "low"
    vulnerable_version_range := "< 1.3.0"
    first_patched_version := some "1.3.0"
    created_at := "2025-01-01T00:00:00Z"
    updated_at := "2025-01-02T00:00:00Z" }

/-- The same left-pad alert with development dependency scope. -/
def leftPadDevAlert : DependabotAlert :=
  { leftPadRuntimeAlert with dependency_scope := "development" }

/-- A critical-severity alert on a development-scoped dependency that no
package-specific heuristic covers: the severity-floor counterexample. -/
def devCritAlert : DependabotAlert :=
  { leftPadRuntimeAlert with
    number := 11
    dependency_package_name := "esbuild"
    dependency_scope := "development"
    advisory_severity := "critical"
    advisory_summary := "remote code execution in dev server" }

/-- A critical-severity runtime alert outside every package-specific
heuristic. -/
def runtimeCritAlert : DependabotAlert :=
  { leftPadRuntimeAlert with
    number := 12
    dependency_package_name := "lodash"
    advisory_severity := "critical"
    advisory_summary := "prototype pollution" }

/-- The operator-authored rule of the spec scenario: left-pad on npm is
non-applicable with reason dev-only at priority 5. -/
def leftPadRule : ApplicabilityRule :=
  { id := 1
    package_name := some "left-pad"
    package_ecosystem := some "npm"
    ghsa_id := none
    cve_id := none
    severity := none
    is_applicable := 0
    reason := "dev-only"
    dismiss_reason := some "not_used"
    priority := 5
    active := 1 }

/-- The catch-all default row seeded by the schema migration: every match
column null, applicable, priority -1. -/
def catchAllSeedRule : ApplicabilityRule :=
  { id := 2
    package_name := none
    package_ecosystem := none
    ghsa_id := none
    cve_id := none
    severity := none
    is_applicable := 1
    reason := "Default: treat all alerts as applicable until reviewed"
    dismiss_reason := none
    priority := -1
    active := 1 }

/-- The active rule table of the spec scenario, delivered in descending
priority order. -/
def scenarioRules : List ApplicabilityRule :=
  [leftPadRule, catchAllSeedRule]

/-- Repositories used by the concrete runs. -/
def siteRepo : Repository :=
  { name := "site", full_name := "XAOSTECH/site", default_branch := "main" }

/-- First of the three repositories of the partial-failure scenario. -/
def alphaRepo : Repository :=
  { name := "alpha", full_name := "XAOSTECH/alpha", default_branch := "main" }

/-- Second of the three repositories: its alert enumeration fails. -/
def betaRepo : Repository :=
  { name := "beta", full_name := "XAOSTECH/beta", default_branch := "main" }

/-- Third of the three repositories. -/
def gammaRepo : Repository :=
  { name := "gamma", full_name := "XAOSTECH/gamma", default_branch := "main" }

/-- A dismissal oracle under which every upstream dismissal succeeds. -/
def allDismissOk : String → Nat → Except String Unit :=
  fun _ _ => Except.ok ()

/-- A database holding only the rule table of the spec scenario. -/
def scenarioDb : Database :=
  { alerts := [], rules := scenarioRules }

/-- Fetch oracle delivering the left-pad runtime alert for XAOSTECH/site. -/
def siteFetch : String → Except String (List DependabotAlert) :=
  fun repoFullName =>
    if repoFullName = "XAOSTECH/site" then Except.ok [leftPadRuntimeAlert]
    else Except.ok []

/-- A one-repository scan run against the scenario rule table: the alert that
the rules classify non-applicable is processed while the rule table sits in
the database. -/
def siteScanRun : ScanState × ScanSummary × ScanRunRow :=
  runSecurityScan (Except.ok [siteRepo]) siteFetch allDismissOk 100 "manual" scenarioDb

/-- Fetch oracle of the partial-failure scenario: alerts enumeration succeeds
with no alerts for alpha and gamma and throws for beta. -/
def partialFailureFetch : String → Except String (List DependabotAlert) :=
  fun repoFullName =>
    if repoFullName = "XAOSTECH/beta" then Except.error "HTTP 500"
    else Except.ok []

/-- The three-repository scan run in which enumerating alerts for the second
repository throws. -/
def partialFailureRun : ScanState × ScanSummary × ScanRunRow :=
  runSecurityScan (Except.ok [alphaRepo, betaRepo, gammaRepo]) partialFailureFetch
    allDismissOk 50 "manual" { alerts := [], rules := [] }

/-- Fetch oracle delivering one auto-dismissable alert for XAOSTECH/alpha. -/
def dismissScenarioFetch : String → Except String (List DependabotAlert) :=
  fun repoFullName =>
    if repoFullName = "XAOSTECH/alpha" then Except.ok [devCritAlert]
    else Except.ok []

/-- A one-repository scan run whose single alert is classified non-applicable
and auto-dismissed. -/
def dismissScenarioRun : ScanState × ScanSummary × ScanRunRow :=
  runSecurityScan (Except.ok [alphaRepo]) dismissScenarioFetch allDismissOk 70 "manual"
    { alerts := [], rules := [] }

/-! Helper lemmas and claim theorems. -/

theorem processAlert_trace (dres : String → Nat → Except String Unit) (now : Nat)
    (repo : Repository) (st : ScanState) (a : DependabotAlert) :
    (processAlert dres now repo st a).trace = st.trace ++ alertEvents dres repo.full_name a := by
  unfold processAlert alertEvents
  rcases h1 : (analyzeAlertApplicability a).applicable with _ | _ <;>
    rcases h2 : (analyzeAlertApplicability a).dismissReason with _ | dr <;>
      rcases h3 : dres repo.full_name a.number with e | u <;>
        simp [h1, h2, h3]

theorem foldl_processAlert_trace (dres : String → Nat → Except String Unit) (now : Nat)
    (repo : Repository) (alerts : List DependabotAlert) (st : ScanState) :
    ((alerts.foldl (processAlert dres now repo) st)).trace =
      st.trace ++ (alerts.map (alertEvents dres repo.full_name)).flatten := by
  induction alerts generalizing st with
  | nil => simp
  | cons a rest ih =>
    simp only [List.foldl_cons, List.map_cons, List.flatten_cons]
    rw [ih, processAlert_trace, List.append_assoc]

theorem processRepo_trace (fetch : String → Except String (List DependabotAlert))
    (dres : String → Nat → Except String Unit) (now : Nat)
    (st : ScanState) (repo : Repository) :
    (processRepo fetch dres now st repo).trace =
      st.trace ++ (repoBlocks fetch dres repo).flatten := by
  unfold processRepo repoBlocks
  rw [foldl_processAlert_trace]

theorem foldl_processRepo_trace (fetch : String → Except String (List DependabotAlert))
    (dres : String → Nat → Except String Unit) (now : Nat)
    (repos : List Repository) (st : ScanState) :
    ((repos.foldl (processRepo fetch dres now) st)).trace =
      st.trace ++ ((repos.map (repoBlocks fetch dres)).flatten).flatten := by
  induction repos generalizing st with
  | nil => simp
  | cons r rest ih =>
    simp only [List.foldl_cons, List.map_cons, List.flatten_cons]
    rw [ih, processRepo_trace, List.append_assoc, List.flatten_append]

theorem runSecurityScan_trace (reposResult : Except String (List Repository))
    (fetch : String → Except String (List DependabotAlert))
    (dres : String → Nat → Except String Unit) (now : Nat) (scanType : String)
    (db : Database) :
    (runSecurityScan reposResult fetch dres now scanType db).1.trace =
      (scanBlocks reposResult fetch dres).flatten := by
  unfold runSecurityScan scanBlocks
  rcases reposResult with e | repos
  · simp
  · simp [foldl_processRepo_trace]

theorem store_mem_alertEvents (dres : String → Nat → Except String Unit)
    (rn rn2 : String) (a a2 : DependabotAlert) (anal : ClassificationResult)
    (h : ScanEvent.store rn a anal ∈ alertEvents dres rn2 a2) :
    rn = rn2 ∧ a = a2 ∧ anal = analyzeAlertApplicability a2 := by
  unfold alertEvents at h
  simp only [List.mem_cons] at h
  rcases h with h | h
  · injection h with h1 h2 h3
    exact ⟨h1, h2, h3⟩
  · exfalso
    rcases h1 : (analyzeAlertApplicability a2).applicable with _ | _ <;>
      rcases h2 : (analyzeAlertApplicability a2).dismissReason with _ | dr <;>
        rcases h3 : dres rn2 a2.number with e | u <;>
          simp [h1, h2, h3] at h

theorem dismiss_mem_alertEvents (dres : String → Nat → Except String Unit)
    (rn rn2 : String) (a a2 : DependabotAlert)
    (h : ScanEvent.dismiss rn a ∈ alertEvents dres rn2 a2) :
    rn = rn2 ∧ a = a2 ∧ (analyzeAlertApplicability a2).applicable = false := by
  unfold alertEvents at h
  simp only [List.mem_cons] at h
  rcases h with h | h
  · exact absurd h (by simp)
  · rcases h1 : (analyzeAlertApplicability a2).applicable with _ | _ <;>
      rcases h2 : (analyzeAlertApplicability a2).dismissReason with _ | dr <;>
        rcases h3 : dres rn2 a2.number with e | u <;>
          simp [h1, h2, h3] at h
    · exact ⟨h.1, h.2, rfl⟩
    · exact ⟨h.1, h.2, rfl⟩

theorem storePrecedes_append (rn : String) (a : DependabotAlert)
    (t1 t2 : List ScanEvent)
    (p1 : StorePrecedes rn a t1) (p2 : StorePrecedes rn a t2) :
    StorePrecedes rn a (t1 ++ t2) := by
  intro l1 l2 heq
  rw [List.append_eq_append_iff] at heq
  rcases heq with ⟨mid, hl1, ht2⟩ | ⟨mid, ht1, hmid⟩
  · subst hl1
    exact List.mem_append_right t1 (p2 mid l2 ht2)
  · rcases mid with _ | ⟨e, mid2⟩
    · have h0 : t2 = [] ++ ScanEvent.dismiss rn a :: l2 := by simpa using hmid.symm
      exact absurd (p2 [] l2 h0) (by simp)
    · rw [List.cons_append] at hmid
      injection hmid with he1 he2
      have h1 : t1 = l1 ++ ScanEvent.dismiss rn a :: mid2 := by rw [ht1, ← he1]
      exact p1 l1 mid2 h1

theorem storePrecedes_nil (rn : String) (a : DependabotAlert) :
    StorePrecedes rn a [] := by
  intro l1 l2 heq
  exact absurd heq.symm (by simp)

theorem storePrecedes_flatten (rn : String) (a : DependabotAlert)
    (blocks : List (List ScanEvent))
    (hb : ∀ b ∈ blocks, StorePrecedes rn a b) :
    StorePrecedes rn a blocks.flatten := by
  induction blocks with
  | nil => exact storePrecedes_nil rn a
  | cons b rest ih =>
    rw [List.flatten_cons]
    exact storePrecedes_append rn a b rest.flatten
      (hb b (List.mem_cons_self b rest))
      (ih fun c hc => hb c (List.mem_cons_of_mem b hc))

theorem storePrecedes_singleton_store (rn rn2 : String) (a a2 : DependabotAlert)
    (anal : ClassificationResult) :
    StorePrecedes rn a [ScanEvent.store rn2 a2 anal] := by
  intro l1 l2 heq
  rcases l1 with _ | ⟨e, l1t⟩
  · exact absurd heq (by simp)
  · rw [List.cons_append] at heq
    injection heq with he1 he2
    exact absurd he2.symm (by simp)

theorem storePrecedes_block (rn rn2 : String) (a a2 : DependabotAlert)
    (rest : List ScanEvent)
    (hrest : ScanEvent.dismiss rn a ∉ rest) :
    StorePrecedes rn a
      (ScanEvent.store rn2 a2 (analyzeAlertApplicability a2) ::
        ScanEvent.dismiss rn2 a2 :: rest) := by
  intro l1 l2 heq
  rcases l1 with _ | ⟨e1, l1t⟩
  · exfalso
    rw [List.nil_append] at heq
    injection heq with he1 he2
    exact absurd he1.symm (by simp)
  · rw [List.cons_append] at heq
    injection heq with he1 he2
    rcases l1t with _ | ⟨e2, l1tt⟩
    · rw [List.nil_append] at he2
      injection he2 with hd1 hd2
      injection hd1 with hx hy
      subst hx
      subst hy
      rw [← he1]
      exact List.mem_cons_self _ _
    · exfalso
      rw [List.cons_append] at he2
      injection he2 with hd1 hd2
      refine hrest ?_
      rw [hd2]
      exact List.mem_append_right l1tt (List.mem_cons_self _ _)

theorem storePrecedes_alertEvents (dres : String → Nat → Except String Unit)
    (rn rn2 : String) (a a2 : DependabotAlert) :
    StorePrecedes rn a (alertEvents dres rn2 a2) := by
  unfold alertEvents
  rcases h1 : (analyzeAlertApplicability a2).applicable with _ | _ <;>
    rcases h2 : (analyzeAlertApplicability a2).dismissReason with _ | dr <;>
      rcases h3 : dres rn2 a2.number with e | u <;>
        simp only [h1, h2, h3, Bool.false_eq_true, if_false, if_true, ite_true, ite_false] <;>
          first
            | exact storePrecedes_singleton_store rn rn2 a a2 _
            | exact storePrecedes_block rn rn2 a a2 _ (by simp)

theorem mem_scanBlocks_elim (reposResult : Except String (List Repository))
    (fetch : String → Except String (List DependabotAlert))
    (dres : String → Nat → Except String Unit)
    (b : List ScanEvent) (hb : b ∈ scanBlocks reposResult fetch dres) :
    ∃ rn2 a2, b = alertEvents dres rn2 a2 := by
  unfold scanBlocks at hb
  rcases reposResult with e | repos
  · exact absurd hb (by simp)
  · rw [List.mem_flatten] at hb
    obtain ⟨bs, hbs, hmem⟩ := hb
    rw [List.mem_map] at hbs
    obtain ⟨repo, _, rfl⟩ := hbs
    unfold repoBlocks at hmem
    rw [List.mem_map] at hmem
    obtain ⟨alert, _, rfl⟩ := hmem
    exact ⟨repo.full_name, alert, rfl⟩

/-- Claim C7 (confirmed): for each alert processed in a scan run, the
alert-store write always happens before any dismissal attempt for that
alert — wherever the run trace is split at a dismissal attempt for a given
repository and alert, the store event for that same repository and alert lies
strictly before the split, so an interruption between classification and
dismissal leaves a stored record rather than a dismissed-but-unrecorded
state. -/
theorem C7_store_before_dismiss
    (reposResult : Except String (List Repository))
    (fetch : String → Except String (List DependabotAlert))
    (dres : String → Nat → Except String Unit) (now : Nat) (scanType : String)
    (db : Database) (rn : String) (a : DependabotAlert)
    (l1 l2 : List ScanEvent)
    (heq : (runSecurityScan reposResult fetch dres now scanType db).1.trace =
      l1 ++ ScanEvent.dismiss rn a :: l2) :
    ScanEvent.store rn a (analyzeAlertApplicability a) ∈ l1 := by
  have ht := runSecurityScan_trace reposResult fetch dres now scanType db
  have hp : StorePrecedes rn a (scanBlocks reposResult fetch dres).flatten := by
    apply storePrecedes_flatten
    intro b hb
    obtain ⟨rn2, a2, rfl⟩ := mem_scanBlocks_elim reposResult fetch dres b hb
    exact storePrecedes_alertEvents dres rn rn2 a a2
  exact hp l1 l2 (ht ▸ heq)

/-- Claim C5 (confirmed): for every alert whose classification has
applicable = true, the dismissal workflow is never invoked for that alert in
any scan run — no dismissal event for it occurs anywhere in the run trace,
even though the classification may carry an incidental dismissReason field
(the branch on applicable is taken before dismissReason is consulted). -/
theorem C5_no_dismiss_when_applicable
    (reposResult : Except String (List Repository))
    (fetch : String → Except String (List DependabotAlert))
    (dres : String → Nat → Except String Unit) (now : Nat) (scanType : String)
    (db : Database) (rn : String) (a : DependabotAlert)
    (happ : (analyzeAlertApplicability a).applicable = true) :
    ScanEvent.dismiss rn a ∉ (runSecurityScan reposResult fetch dres now scanType db).1.trace := by
  intro hmem
  rw [runSecurityScan_trace, List.mem_flatten] at hmem
  obtain ⟨b, hb, hmb⟩ := hmem
  obtain ⟨rn2, a2, rfl⟩ := mem_scanBlocks_elim reposResult fetch dres b hb
  obtain ⟨_, rfl, hfalse⟩ := dismiss_mem_alertEvents dres rn rn2 a a2 hmb
  rw [happ] at hfalse
  exact absurd hfalse (by simp)

/-- Claim C1 (corrected, amended form): for every alert processed during a
scan run, the applicability classification stored for it is exactly the
output of the built-in heuristic analyzer on that alert; the stored active
applicability rules are never consulted by the scan (its entire outcome is
identical under any two rule tables), the rules-first algorithm the claim
describes being implemented only by the never-invoked checkApplicability. -/
theorem C1_scan_uses_heuristic_only :
    (∀ (reposResult : Except String (List Repository))
       (fetch : String → Except String (List DependabotAlert))
       (dres : String → Nat → Except String Unit) (now : Nat) (scanType : String)
       (alertsTable : List AlertRow) (rules1 rules2 : List ApplicabilityRule),
       runSecurityScan reposResult fetch dres now scanType
           { alerts := alertsTable, rules := rules1 } =
       runSecurityScan reposResult fetch dres now scanType
           { alerts := alertsTable, rules := rules2 }) ∧
    (∀ (reposResult : Except String (List Repository))
       (fetch : String → Except String (List DependabotAlert))
       (dres : String → Nat → Except String Unit) (now : Nat) (scanType : String)
       (db : Database) (rn : String) (a : DependabotAlert) (anal : ClassificationResult),
       ScanEvent.store rn a anal ∈
         (runSecurityScan reposResult fetch dres now scanType db).1.trace →
       anal = analyzeAlertApplicability a) := by
  constructor
  · intro reposResult fetch dres now scanType alertsTable rules1 rules2
    rfl
  · intro reposResult fetch dres now scanType db rn a anal hmem
    rw [runSecurityScan_trace, List.mem_flatten] at hmem
    obtain ⟨b, hb, hmb⟩ := hmem
    obtain ⟨rn2, a2, rfl⟩ := mem_scanBlocks_elim reposResult fetch dres b hb
    obtain ⟨_, rfl, hanal⟩ := store_mem_alertEvents dres rn rn2 a a2 anal hmb
    exact hanal

/-- Counterexample to claim C1 as stated: with the spec scenario rule table
active (left-pad non-applicable at priority 5 plus the catch-all), a scan run
over one repository holding a left-pad alert stores the heuristic verdict
applicable = 1 with reason Requires manual review, while the rules-first
algorithm of the claim yields non-applicable. -/
theorem C1_counterexample :
    siteScanRun.1.trace =
      [ScanEvent.store "XAOSTECH/site" leftPadRuntimeAlert
        (analyzeAlertApplicability leftPadRuntimeAlert)] ∧
    (analyzeAlertApplicability leftPadRuntimeAlert).applicable = true ∧
    (specScanClassify scenarioRules leftPadRuntimeAlert).applicable = false ∧
    (siteScanRun.1.alertsTable.map fun r => (r.is_applicable, r.applicability_reason)) =
      [(1, "Requires manual review")] := by decide

/-- Witness for C1_scan_uses_heuristic_only at a concrete run. -/
theorem C1_witness :
    ScanEvent.store "XAOSTECH/site" leftPadRuntimeAlert
        { applicable := true, reason := "Requires manual review", dismissReason := none } ∈
      siteScanRun.1.trace ∧
    ({ applicable := true, reason := "Requires manual review", dismissReason := none } :
        ClassificationResult) = analyzeAlertApplicability leftPadRuntimeAlert :=
  ⟨by decide,
   C1_scan_uses_heuristic_only.2 (Except.ok [siteRepo]) siteFetch allDismissOk 100 "manual"
     scenarioDb "XAOSTECH/site" leftPadRuntimeAlert
     { applicable := true, reason := "Requires manual review", dismissReason := none }
     (by decide)⟩

/-- Witness for C5_no_dismiss_when_applicable at a concrete run. -/
theorem C5_witness :
    (analyzeAlertApplicability leftPadRuntimeAlert).applicable = true ∧
    ScanEvent.dismiss "XAOSTECH/site" leftPadRuntimeAlert ∉ siteScanRun.1.trace :=
  ⟨by decide,
   C5_no_dismiss_when_applicable (Except.ok [siteRepo]) siteFetch allDismissOk 100 "manual"
     scenarioDb "XAOSTECH/site" leftPadRuntimeAlert (by decide)⟩

/-- Witness for C7_store_before_dismiss at a concrete run whose single alert
is auto-dismissed. -/
theorem C7_witness :
    dismissScenarioRun.1.trace =
      [ScanEvent.store "XAOSTECH/alpha" devCritAlert (analyzeAlertApplicability devCritAlert)] ++
        ScanEvent.dismiss "XAOSTECH/alpha" devCritAlert ::
          [ScanEvent.autoClose "XAOSTECH/alpha" 11] ∧
    ScanEvent.store "XAOSTECH/alpha" devCritAlert (analyzeAlertApplicability devCritAlert) ∈
      [ScanEvent.store "XAOSTECH/alpha" devCritAlert (analyzeAlertApplicability devCritAlert)] :=
  ⟨by decide,
   C7_store_before_dismiss (Except.ok [alphaRepo]) dismissScenarioFetch allDismissOk 70 "manual"
     { alerts := [], rules := [] } "XAOSTECH/alpha" devCritAlert
     [ScanEvent.store "XAOSTECH/alpha" devCritAlert (analyzeAlertApplicability devCritAlert)]
     [ScanEvent.autoClose "XAOSTECH/alpha" 11] (by decide)⟩

/-- Counterexample to claim C2 as stated: a critical-severity alert on a
development-scoped dependency (matching no configured rule and no
package-specific heuristic) is classified non-applicable by the analyzer,
because the development-scope check precedes the severity check. -/
theorem C2_counterexample :
    devCritAlert.advisory_severity = "critical" ∧
    (analyzeAlertApplicability devCritAlert).applicable = false ∧
    (analyzeAlertApplicability devCritAlert).reason =
      "Development dependency - not deployed to production" := by decide

/-- Claim C2 (corrected, amended form): an alert of critical or high advisory
severity resolves applicable = true provided additionally that its dependency
scope is not development and that its lower-cased package name is not hono
(whose package-specific heuristics run first); the severity check is not a
hard floor, since the development-scope heuristic precedes it. -/
theorem C2_severity_floor_amended (a : DependabotAlert)
    (hsev : a.advisory_severity = "critical" ∨ a.advisory_severity = "high")
    (hscope : a.dependency_scope ≠ "development")
    (hpkg : jsToLower a.dependency_package_name ≠ "hono") :
    (analyzeAlertApplicability a).applicable = true := by
  have h1 : (jsToLower a.dependency_package_name == "hono") = false :=
    beq_eq_false_iff_ne.mpr hpkg
  have h2 : (a.dependency_scope == "development") = false :=
    beq_eq_false_iff_ne.mpr hscope
  unfold analyzeAlertApplicability
  simp only [h1, h2, Bool.false_and, Bool.and_false, if_false, ite_false, Bool.false_eq_true]
  split
  · rfl
  · split
    · rfl
    · rfl

/-- Witness for C2_severity_floor_amended at a concrete alert. -/
theorem C2_witness :
    (runtimeCritAlert.advisory_severity = "critical" ∨
      runtimeCritAlert.advisory_severity = "high") ∧
    (analyzeAlertApplicability runtimeCritAlert).applicable = true :=
  ⟨by decide, C2_severity_floor_amended runtimeCritAlert (by decide) (by decide) (by decide)⟩

/-- Counterexample to claim C3 as stated: in the three-repository run where
alert enumeration for the second repository throws, it is not the case that
repositories_scanned = 2 with exactly one error entry. -/
theorem C3_counterexample :
    ¬ (partialFailureRun.2.1.repos_scanned = 2 ∧
       partialFailureRun.2.1.errors.length = 1) := by decide

/-- Claim C3 (corrected, amended form): when the orchestrator scans 3
repositories and enumerating alerts for repository 2 throws while the other
two succeed, the run completes with success = 1, repositories_scanned = 3 and
an empty error list, because getDependabotAlerts swallows the enumeration
failure and treats the repository as having zero alerts. -/
theorem C3_partial_failure_amended :
    partialFailureRun.2.2.success = 1 ∧
    partialFailureRun.2.1.repos_scanned = 3 ∧
    partialFailureRun.2.1.errors = [] ∧
    partialFailureRun.2.1.alerts_found = 0 := by decide

theorem storeAlert_no_conflict (table : List AlertRow) (repo : Repository)
    (alert : DependabotAlert) (anal : ClassificationResult) (t : Nat)
    (h : table.any (rowHasKey repo.full_name "dependabot" alert.number) = false) :
    storeAlert table repo alert anal t = table ++ [insertedAlertRow repo alert anal t] := by
  simp [storeAlert, h]

theorem storeAlert_conflict (table : List AlertRow) (repo : Repository)
    (alert : DependabotAlert) (anal : ClassificationResult) (t : Nat)
    (h : table.any (rowHasKey repo.full_name "dependabot" alert.number) = true) :
    storeAlert table repo alert anal t =
      table.map (fun row =>
        if rowHasKey repo.full_name "dependabot" alert.number row then
          updatedAlertRow alert anal t row
        else row) := by
  simp [storeAlert, h]

theorem rowHasKey_insertedAlertRow (repo : Repository) (alert : DependabotAlert)
    (anal : ClassificationResult) (t : Nat) :
    rowHasKey repo.full_name "dependabot" alert.number (insertedAlertRow repo alert anal t) = true := by
  simp [rowHasKey, insertedAlertRow]

theorem rowHasKey_updatedAlertRow (f ty : String) (n : Nat) (alert : DependabotAlert)
    (anal : ClassificationResult) (t : Nat) (row : AlertRow) :
    rowHasKey f ty n (updatedAlertRow alert anal t row) = rowHasKey f ty n row := by
  simp [rowHasKey, updatedAlertRow]

theorem filter_map_conditional_update (f ty : String) (n : Nat) (alert : DependabotAlert)
    (anal : ClassificationResult) (t : Nat) (l : List AlertRow) :
    (l.map (fun row => if rowHasKey f ty n row then updatedAlertRow alert anal t row else row)).filter
        (rowHasKey f ty n) =
      (l.filter (rowHasKey f ty n)).map (updatedAlertRow alert anal t) := by
  induction l with
  | nil => rfl
  | cons r rest ih =>
    rcases hr : rowHasKey f ty n r with _ | _
    · simp [hr, ih]
    · simp [hr, rowHasKey_updatedAlertRow, ih]

/-- Claim C4 (confirmed): upserting the same alert payload twice in a row
with unchanged upstream state leaves exactly one stored row for its
(repository full name, alert kind, upstream alert id) key, with the
first-seen timestamp unchanged across the second upsert and the last-checked
timestamp advanced, for any starting table satisfying the uniqueness
invariant on that key. -/
theorem C4_idempotent_ingestion (table : List AlertRow) (repo : Repository)
    (alert : DependabotAlert) (anal : ClassificationResult) (t1 t2 : Nat)
    (huniq : (table.filter (rowHasKey repo.full_name "dependabot" alert.number)).length ≤ 1)
    (ht : t1 < t2) :
    ((storeAlert (storeAlert table repo alert anal t1) repo alert anal t2).filter
        (rowHasKey repo.full_name "dependabot" alert.number)).length = 1 ∧
    (∀ r1 ∈ (storeAlert table repo alert anal t1).filter
        (rowHasKey repo.full_name "dependabot" alert.number),
     ∀ r2 ∈ (storeAlert (storeAlert table repo alert anal t1) repo alert anal t2).filter
        (rowHasKey repo.full_name "dependabot" alert.number),
       r2.first_seen_at = r1.first_seen_at ∧ r1.last_checked_at < r2.last_checked_at) := by
  rcases hfil : table.filter (rowHasKey repo.full_name "dependabot" alert.number) with _ | ⟨r0, rest⟩
  · -- no pre-existing row: the first upsert inserts, the second updates it
    have hnone : ∀ r ∈ table, rowHasKey repo.full_name "dependabot" alert.number r = false := by
      intro r hr
      simpa using List.filter_eq_nil_iff.mp hfil r hr
    have hany1 : table.any (rowHasKey repo.full_name "dependabot" alert.number) = false := by
      rw [List.any_eq_false]
      intro r hr
      simp [hnone r hr]
    have e1 := storeAlert_no_conflict table repo alert anal t1 hany1
    have hf1 : (storeAlert table repo alert anal t1).filter
        (rowHasKey repo.full_name "dependabot" alert.number) =
        [insertedAlertRow repo alert anal t1] := by
      rw [e1, List.filter_append, hfil]
      simp [rowHasKey_insertedAlertRow]
    have hany2 : (storeAlert table repo alert anal t1).any
        (rowHasKey repo.full_name "dependabot" alert.number) = true := by
      rw [List.any_eq_true]
      refine ⟨insertedAlertRow repo alert anal t1, ?_, rowHasKey_insertedAlertRow repo alert anal t1⟩
      rw [e1]
      exact List.mem_append_right table (List.mem_cons_self _ _)
    have e2 := storeAlert_conflict (storeAlert table repo alert anal t1) repo alert anal t2 hany2
    have hf2 : (storeAlert (storeAlert table repo alert anal t1) repo alert anal t2).filter
        (rowHasKey repo.full_name "dependabot" alert.number) =
        [updatedAlertRow alert anal t2 (insertedAlertRow repo alert anal t1)] := by
      rw [e2, filter_map_conditional_update, hf1]
      rfl
    constructor
    · rw [hf2]
      rfl
    · intro r1 hr1 r2 hr2
      rw [hf1] at hr1
      rw [hf2] at hr2
      rw [List.mem_singleton] at hr1 hr2
      subst hr1
      subst hr2
      exact ⟨rfl, ht⟩
  · -- a pre-existing row: both upserts take the conflict path
    have hrest : rest = [] := by
      rw [hfil] at huniq
      simpa using huniq
    subst hrest
    have hr0 : r0 ∈ table ∧ rowHasKey repo.full_name "dependabot" alert.number r0 = true := by
      have : r0 ∈ table.filter (rowHasKey repo.full_name "dependabot" alert.number) := by
        rw [hfil]
        exact List.mem_singleton.mpr rfl
      exact List.mem_filter.mp this
    have hany1 : table.any (rowHasKey repo.full_name "dependabot" alert.number) = true := by
      rw [List.any_eq_true]
      exact ⟨r0, hr0.1, hr0.2⟩
    have e1 := storeAlert_conflict table repo alert anal t1 hany1
    have hf1 : (storeAlert table repo alert anal t1).filter
        (rowHasKey repo.full_name "dependabot" alert.number) =
        [updatedAlertRow alert anal t1 r0] := by
      rw [e1, filter_map_conditional_update, hfil]
      rfl
    have hany2 : (storeAlert table repo alert anal t1).any
        (rowHasKey repo.full_name "dependabot" alert.number) = true := by
      rw [List.any_eq_true]
      refine ⟨updatedAlertRow alert anal t1 r0, ?_, ?_⟩
      · have : updatedAlertRow alert anal t1 r0 ∈ (storeAlert table repo alert anal t1).filter
            (rowHasKey repo.full_name "dependabot" alert.number) := by
          rw [hf1]
          exact List.mem_singleton.mpr rfl
        exact (List.mem_filter.mp this).1
      · rw [rowHasKey_updatedAlertRow]
        exact hr0.2
    have e2 := storeAlert_conflict (storeAlert table repo alert anal t1) repo alert anal t2 hany2
    have hf2 : (storeAlert (storeAlert table repo alert anal t1) repo alert anal t2).filter
        (rowHasKey repo.full_name "dependabot" alert.number) =
        [updatedAlertRow alert anal t2 (updatedAlertRow alert anal t1 r0)] := by
      rw [e2, filter_map_conditional_update, hf1]
      rfl
    constructor
    · rw [hf2]
      rfl
    · intro r1 hr1 r2 hr2
      rw [hf1] at hr1
      rw [hf2] at hr2
      rw [List.mem_singleton] at hr1 hr2
      subst hr1
      subst hr2
      exact ⟨rfl, ht⟩

theorem ruleMatches_congr (rule : ApplicabilityRule) (a a2 : DependabotAlert)
    (hname : a2.dependency_package_name = a.dependency_package_name)
    (heco : a2.dependency_package_ecosystem = a.dependency_package_ecosystem)
    (hghsa : a2.advisory_ghsa_id = a.advisory_ghsa_id)
    (hcve : a2.advisory_cve_id = a.advisory_cve_id)
    (hsev : a2.advisory_severity = a.advisory_severity) :
    ruleMatches rule a2 = ruleMatches rule a := by
  simp [ruleMatches, hname, heco, hghsa, hcve, hsev]

/-- Claim C6 (confirmed): for every alert and every delivered rule list in
descending priority order, checkApplicability returns the verdict, reason and
dismissal code of the highest-priority matching rule — the unique matching
rule whose priority strictly exceeds every other matching rule, wherever it
sits in the list — and the result is unchanged for any alert agreeing on the
five match fields (package name, ecosystem, advisory id, CVE id, severity),
so non-match attributes such as dependency scope cannot affect matching. -/
theorem C6_rule_precedence (rules : List ApplicabilityRule) (r : ApplicabilityRule)
    (a a2 : DependabotAlert)
    (hsorted : rules.Pairwise (fun x y => y.priority ≤ x.priority))
    (hmem : r ∈ rules)
    (hmatch : ruleMatches r a = true)
    (hmax : ∀ s ∈ rules, ruleMatches s a = true → s ≠ r → s.priority < r.priority)
    (hname : a2.dependency_package_name = a.dependency_package_name)
    (heco : a2.dependency_package_ecosystem = a.dependency_package_ecosystem)
    (hghsa : a2.advisory_ghsa_id = a.advisory_ghsa_id)
    (hcve : a2.advisory_cve_id = a.advisory_cve_id)
    (hsev : a2.advisory_severity = a.advisory_severity) :
    checkApplicability rules a2 =
      { applicable := r.is_applicable == 1
        reason := r.reason
        dismissReason := jsOrUndefined r.dismiss_reason } := by
  induction rules with
  | nil => exact absurd hmem (by simp)
  | cons hd tl ih =>
    rw [List.pairwise_cons] at hsorted
    rcases hhd : ruleMatches hd a with _ | _
    · -- the head does not match: the search continues in the tail
      have hhd2 : ruleMatches hd a2 = false := by
        rw [ruleMatches_congr hd a a2 hname heco hghsa hcve hsev, hhd]
      have hne : r ≠ hd := by
        intro he
        rw [he, hhd] at hmatch
        exact absurd hmatch (by simp)
      have hmemtl : r ∈ tl := by
        rcases List.mem_cons.mp hmem with he | htl
        · exact absurd he hne
        · exact htl
      have : checkApplicability (hd :: tl) a2 = checkApplicability tl a2 := by
        unfold checkApplicability
        rw [List.find?_cons_of_neg _ (by simp [hhd2])]
      rw [this]
      exact ih hsorted.2 hmemtl
        (fun s hs hsm hsne => hmax s (List.mem_cons_of_mem hd hs) hsm hsne)
    · -- the head matches: it must be the winning rule
      have hhd2 : ruleMatches hd a2 = true := by
        rw [ruleMatches_congr hd a a2 hname heco hghsa hcve hsev, hhd]
      have hhdr : hd = r := by
        by_contra hne
        have hlt : hd.priority < r.priority :=
          hmax hd (List.mem_cons_self hd tl) hhd hne
        rcases List.mem_cons.mp hmem with he | htl
        · exact hne he.symm
        · have : r.priority ≤ hd.priority := hsorted.1 r htl
          omega
      unfold checkApplicability
      rw [List.find?_cons_of_pos _ (by simp [hhd2])]
      rw [hhdr]

/-- Witness for C6_rule_precedence at the spec scenario: the left-pad rule
plus the catch-all, applied to a runtime-scoped alert agreeing with the
development-scoped one on all match fields. -/
theorem C6_witness :
    ruleMatches leftPadRule leftPadDevAlert = true ∧
    leftPadRuntimeAlert.dependency_scope ≠ leftPadDevAlert.dependency_scope ∧
    checkApplicability scenarioRules leftPadRuntimeAlert =
      { applicable := false, reason := "dev-only", dismissReason := some "not_used" } :=
  ⟨by decide, by decide,
   C6_rule_precedence scenarioRules leftPadRule leftPadDevAlert leftPadRuntimeAlert
     (by decide) (by decide) (by decide) (by decide)
     (by decide) (by decide) (by decide) (by decide) (by decide)⟩

/-- Counterexample to claim C8 as stated: a cached token with remaining
validity of exactly 60 seconds (60000 ms at now = 0) is not returned — the
comparison is strict, so a network exchange is performed and the fresh token
returned instead. -/
theorem C8_counterexample :
    (60000 : Int) - 0 ≥ 60000 ∧
    getInstallationToken (some ("cached-token", 60000)) 0
        (Except.ok ("fresh-token", 3600000)) =
      Except.ok { token := "fresh-token", cache := some ("fresh-token", 3600000),
                  network := true } :=
  ⟨by decide, rfl⟩

/-- Claim C8 (corrected, amended form): whenever getInstallationToken finds a
cached token whose remaining validity is strictly greater than 60 seconds, it
returns the cached token with no network activity (no assertion signing and
no token-exchange request) and the cache unchanged. -/
theorem C8_cache_hit_amended (token : String) (expiresAt now : Int)
    (exchange : Except String (String × Int))
    (hfresh : expiresAt > now + 60000) :
    getInstallationToken (some (token, expiresAt)) now exchange =
      Except.ok { token := token, cache := some (token, expiresAt), network := false } := by
  simp [getInstallationToken, hfresh]

/-- Witness for C8_cache_hit_amended at a concrete cache state. -/
theorem C8_witness :
    (3600000 : Int) > 0 + 60000 ∧
    getInstallationToken (some ("cached-token", 3600000)) 0
        (Except.ok ("fresh-token", 7200000)) =
      Except.ok { token := "cached-token", cache := some ("cached-token", 3600000),
                  network := false } :=
  ⟨by decide,
   C8_cache_hit_amended "cached-token" 3600000 0 (Except.ok ("fresh-token", 7200000))
     (by decide)⟩

/-- Counterexample to claim C9 as stated: with the seeded catch-all rule as
the only active rule, an alert classifies applicable = true but with the
reason stored on the rule, which is not the verbatim string expected by the
claim. -/
theorem C9_counterexample :
    checkApplicability [catchAllSeedRule] leftPadRuntimeAlert =
      { applicable := true
        reason := "Default: treat all alerts as applicable until reviewed"
        dismissReason := none } ∧
    (checkApplicability [catchAllSeedRule] leftPadRuntimeAlert).reason ≠
      "no matching rule" := by decide

/-- Claim C9 (corrected, amended form): if the active rules consist of one
catch-all rule only (every match field null), every alert classifies with
that rule's stored verdict, reason and dismissal code — applicable = true
with reason Default: treat all alerts as applicable until reviewed for the
seeded default row — while the verbatim fallback reason No matching rule -
treating as applicable is produced only when no rule matches at all. -/
theorem C9_catch_all_amended (r : ApplicabilityRule) (a : DependabotAlert)
    (hname : r.package_name = none) (heco : r.package_ecosystem = none)
    (hghsa : r.ghsa_id = none) (hcve : r.cve_id = none) (hsev : r.severity = none) :
    checkApplicability [r] a =
      { applicable := r.is_applicable == 1
        reason := r.reason
        dismissReason := jsOrUndefined r.dismiss_reason } ∧
    checkApplicability [] a =
      { applicable := true, reason := "No matching rule - treating as applicable"
        dismissReason := none } := by
  constructor
  · have hm : ruleMatches r a = true := by
      simp [ruleMatches, hname, heco, hghsa, hcve, hsev]
    unfold checkApplicability
    rw [List.find?_cons_of_pos _ (by simp [hm])]
  · rfl

/-- Witness for C9_catch_all_amended at the seeded catch-all rule. -/
theorem C9_witness :
    catchAllSeedRule.package_name = none ∧
    checkApplicability [catchAllSeedRule] leftPadRuntimeAlert =
      { applicable := true
        reason := "Default: treat all alerts as applicable until reviewed"
        dismissReason := none } :=
  ⟨by decide,
   (C9_catch_all_amended catchAllSeedRule leftPadRuntimeAlert
     (by decide) (by decide) (by decide) (by decide) (by decide)).1⟩

/-- Claim C10 (confirmed): every request to POST /webhook leaves all
persistent state unchanged, performs no signature verification (the response
and state are the same for every value of the signature header, which the
handler never reads), triggers no scan, and responds received = true. -/
theorem C10_webhook_no_effect (db : Database) (eventHeader : Option String)
    (bodyAction : String) (signatureHeader : Option String) :
    postWebhook db eventHeader bodyAction signatureHeader =
      (db, [], { received := true }) := by
  unfold postWebhook
  split
  · rfl
  · rfl

/-- Witness for C4_idempotent_ingestion: two upserts of the left-pad alert
into an empty table at instants 0 and 1. -/
theorem C4_witness :
    (([] : List AlertRow).filter
        (rowHasKey siteRepo.full_name "dependabot" leftPadRuntimeAlert.number)).length ≤ 1 ∧
    ((storeAlert
        (storeAlert [] siteRepo leftPadRuntimeAlert
          (analyzeAlertApplicability leftPadRuntimeAlert) 0)
        siteRepo leftPadRuntimeAlert
        (analyzeAlertApplicability leftPadRuntimeAlert) 1).filter
        (rowHasKey siteRepo.full_name "dependabot" leftPadRuntimeAlert.number)).length = 1 :=
  ⟨by decide,
   (C4_idempotent_ingestion [] siteRepo leftPadRuntimeAlert
     (analyzeAlertApplicability leftPadRuntimeAlert) 0 1 (by decide) (by decide)).1⟩
